import Mathlib

/-!
Verification of the orchestration core of the 24hours task-automation
service: the discovery/locking poller (`task-poller.service.ts`), the
review poller (`review-poller.service.ts`), the job processor
(`task.processor.ts`), the task tracker (`MonitorService`) and the
session/idempotency store (`SessionStoreService`).

The development is a shallow embedding: the TypeScript state (JS `Map`s,
the SQLite tables, the Linear tracker statuses, the Socket.IO broadcast
stream) is modelled as explicit Lean data, and each method becomes a pure
state-transformer.  JS `Map` insertion-order semantics are modelled by
association lists; SQL timestamps are modelled as `Nat` ticks.
-/

namespace TwentyFour

/-- Embeds JS `String.prototype.startsWith(pat)` via the underlying
character lists. -/
def strStartsWith (s pat : String) : Bool :=
  pat.data.isPrefixOf s.data

/-- Contiguous-subsequence test on character lists (helper for
`strIncludes`). -/
def charsContain : List Char → List Char → Bool
  | pat, [] => pat.isEmpty
  | pat, c :: rest => pat.isPrefixOf (c :: rest) || charsContain pat rest

/-- Embeds JS `String.prototype.includes(pat)` (substring test) via the
underlying character lists. -/
def strIncludes (s pat : String) : Bool :=
  charsContain pat.data s.data

/-- Embeds JS `String.prototype.toLowerCase()` for the ASCII range used by
the review keywords. -/
def strToLower (s : String) : String :=
  String.mk (s.data.map Char.toLower)

/-- Lookup in an association list, embedding `Map.get` / a SQL point
lookup keyed by the first component. -/
def alookup {α : Type} : List (String × α) → String → Option α
  | [], _ => none
  | p :: rest, k => if p.1 == k then some p.2 else alookup rest k

/-- Insert-or-replace in an association list, embedding `Map.set` /
SQL upsert: replaces the existing entry in place when the key is present,
appends otherwise (preserving JS `Map` insertion order). -/
def aset {α : Type} : List (String × α) → String → α → List (String × α)
  | [], k, v => [(k, v)]
  | p :: rest, k, v =>
      if p.1 == k then (k, v) :: rest else p :: aset rest k v

/-- Key removal, embedding `Map.delete`. -/
def adel {α : Type} (l : List (String × α)) (k : String) :
    List (String × α) :=
  l.filter (fun p => !(p.1 == k))

/-- The keys of an association list. -/
def akeys {α : Type} (l : List (String × α)) : List String :=
  l.map Prod.fst

/-- SQL `COALESCE(a, b)`. -/
def coalesce {α : Type} (a b : Option α) : Option α :=
  match a with
  | some v => some v
  | none => b

/-- JS falsy coercion `s || null` for strings: the empty string becomes
SQL NULL. -/
def strOrNull (s : String) : Option String :=
  if s = "" then none else some s

/-! ## Session store (`SessionStoreService`, `session-store.service.ts`)

One SQLite row of `task_sessions`, keyed by `linear_task_id`.
Timestamps (`started_at`, `completed_at`) are modelled as `Nat` ticks. -/

structure SessRow where
  sessionId : Option String
  identifier : String
  title : String
  startedAt : Nat
  completedAt : Option Nat
  success : Option Bool
  deriving DecidableEq, Repr

/-- The argument record of `SessionStoreService.saveSession`
(`TaskSession`): `sessionId` is a plain string (the caller passes `''`),
which `stmt.run` coerces with `|| null`. -/
structure TaskSession where
  linearTaskId : String
  sessionId : String
  identifier : String
  title : String
  startedAt : Nat
  completedAt : Option Nat
  success : Option Bool
  deriving DecidableEq, Repr

/-- `SessionStoreService.saveSession`: INSERT .. ON CONFLICT(linear_task_id)
DO UPDATE with `session_id = COALESCE(@sessionId, session_id)`,
`completed_at = COALESCE(@completedAt, completed_at)`,
`success = COALESCE(@success, success)`; `identifier`, `title` and the
(non-null) `started_at` parameter are overwritten. -/
def saveSession (db : List (String × SessRow)) (ts : TaskSession) :
    List (String × SessRow) :=
  match alookup db ts.linearTaskId with
  | none =>
      aset db ts.linearTaskId
        { sessionId := strOrNull ts.sessionId
          identifier := ts.identifier
          title := ts.title
          startedAt := ts.startedAt
          completedAt := ts.completedAt
          success := ts.success }
  | some old =>
      aset db ts.linearTaskId
        { sessionId := coalesce (strOrNull ts.sessionId) old.sessionId
          identifier := ts.identifier
          title := ts.title
          startedAt := ts.startedAt
          completedAt := coalesce ts.completedAt old.completedAt
          success := coalesce ts.success old.success }

/-- `SessionStoreService.updateSessionId`: UPDATE task_sessions SET
session_id = ? WHERE linear_task_id = ? (a no-op when the row is
absent). -/
def updateSessionId (db : List (String × SessRow)) (taskId sid : String) :
    List (String × SessRow) :=
  match alookup db taskId with
  | none => db
  | some old => aset db taskId { old with sessionId := some sid }

/-- `SessionStoreService.completeTask`: UPDATE task_sessions SET
completed_at = CURRENT_TIMESTAMP, success = ? WHERE linear_task_id = ?
(a no-op when the row is absent). -/
def completeTask (db : List (String × SessRow)) (taskId : String)
    (success : Bool) (t : Nat) : List (String × SessRow) :=
  match alookup db taskId with
  | none => db
  | some old =>
      aset db taskId { old with completedAt := some t, success := some success }

/-- `SessionStoreService.isCommentProcessed`: point lookup in the
`processed_comments` table (comment id mapped to its task id). -/
def isCommentProcessed (ledger : List (String × String)) (cid : String) :
    Bool :=
  (alookup ledger cid).isSome

/-- `SessionStoreService.markCommentProcessed`: INSERT OR IGNORE into
`processed_comments`. -/
def markCommentProcessed (ledger : List (String × String))
    (cid taskId : String) : List (String × String) :=
  if isCommentProcessed ledger cid then ledger else ledger ++ [(cid, taskId)]

/-- `SessionStoreService.markCommentsProcessed`: INSERT OR IGNORE of every
supplied comment id, inside one SQLite transaction. -/
def markCommentsProcessed (ledger : List (String × String))
    (cids : List String) (taskId : String) : List (String × String) :=
  cids.foldl (fun l c => markCommentProcessed l c taskId) ledger

/-! ## Status names (`TaskStatus` enum, `linear.types.ts`) -/

def statusBacklog : String := "Backlog"

def statusTodo : String := "Todo"

def statusInProgress : String := "In Progress"

def statusInReview : String := "In Review"

def statusDone : String := "Done"

def statusFailed : String := "Failed"

def statusCanceled : String := "Canceled"

/-- A `LinearTask` as the core reads it (`linear.types.ts`): the fields the
orchestration core consumes. -/
structure Task where
  id : String
  identifier : String
  title : String
  description : Option String
  deriving DecidableEq, Repr

/-! ## Dashboard broadcast (`MonitorGateway`) -/

/-- Payload of `broadcastTaskUpdate` (`TaskUpdateEvent` in
`monitor.gateway.ts`); absent optional fields are `none`. -/
structure TaskUpdateEvent where
  taskId : String
  identifier : String
  status : String
  progress : Option Nat := none
  currentStep : Option String := none
  startedAt : Option Nat := none
  duration : Option Nat := none
  sessionId : Option String := none
  deriving DecidableEq, Repr

/-- One broadcast emitted by the gateway: a task update, a log line, or the
aggregate-stats refresh triggered by `refreshStats`. -/
inductive MonEvent
  | update (e : TaskUpdateEvent)
  | log (level : String) (taskId : Option String) (message : String)
  | stats
  deriving DecidableEq, Repr

/-! ## Task tracker state (`MonitorService`) -/

/-- `RunningTaskInfo` (`monitor.service.ts`); `steps` pairs each step string
with its timestamp. -/
structure RunningTaskInfo where
  taskId : String
  identifier : String
  title : String
  progress : Nat
  currentStep : Option String
  steps : List (String × Nat)
  startedAt : Nat
  sessionId : Option String
  deriving DecidableEq, Repr

/-- `TaskExecutionHistory` (`monitor.service.ts`). -/
structure TaskExecutionHistory where
  taskId : String
  identifier : String
  title : String
  sessionId : Option String
  startedAt : Nat
  completedAt : Nat
  success : Bool
  deriving DecidableEq, Repr

/-- Combined state of the orchestration core: the external tracker as the
core drives it (state-name cache, per-issue status, posted comments), the
monitor's two in-memory maps, the two SQLite tables of the session store,
the gateway broadcast stream, and the job queue contents.  `statusLog`
records every status transition requested through
`LinearService.lockTask`/`updateStatus`, in call order. -/
structure SysState where
  configured : Bool
  trackerStates : List String
  statuses : List (String × String)
  statusLog : List (String × String)
  comments : List (String × String)
  runningTasks : List (String × RunningTaskInfo)
  taskHistory : List (String × TaskExecutionHistory)
  sessions : List (String × SessRow)
  processed : List (String × String)
  events : List MonEvent
  deriving DecidableEq, Repr

/-! ## Tracker collaborator calls (`LinearService`) -/

/-- `LinearService.lockTask`: resolves the "In Progress" state id and
unconditionally updates the issue to it, returning `true`; it returns
`false` only when the client is unconfigured or the state id cannot be
resolved — it never inspects the issue's current status. -/
def lockTask (st : SysState) (issueId : String) : SysState × Bool :=
  let requested := st.statusLog ++ [(issueId, statusInProgress)]
  if st.configured && st.trackerStates.contains statusInProgress then
    ({ st with statusLog := requested
               statuses := aset st.statuses issueId statusInProgress }, true)
  else
    ({ st with statusLog := requested }, false)

/-- `LinearService.updateStatus`: resolves the named state and updates the
issue, returning `true`; `false` when unconfigured or the state name is
unknown. -/
def updateStatus (st : SysState) (issueId statusName : String) :
    SysState × Bool :=
  let requested := st.statusLog ++ [(issueId, statusName)]
  if st.configured && st.trackerStates.contains statusName then
    ({ st with statusLog := requested
               statuses := aset st.statuses issueId statusName }, true)
  else
    ({ st with statusLog := requested }, false)

/-- `LinearService.addComment`: posts a comment body on an issue (no-op
when unconfigured; the boolean result is never consulted by the core). -/
def addComment (st : SysState) (issueId body : String) : SysState :=
  if st.configured then
    { st with comments := st.comments ++ [(issueId, body)] }
  else
    st

/-! ## Task tracker methods (`MonitorService`) -/

/-- `MonitorService.taskStarted`: inserts a fresh running entry, upserts the
session row (with empty `sessionId`, which `saveSession` coerces to NULL),
and broadcasts a "running" update plus a log line. -/
def taskStarted (st : SysState) (taskId identifier title : String)
    (t : Nat) : SysState :=
  let info : RunningTaskInfo :=
    { taskId := taskId, identifier := identifier, title := title
      progress := 0, currentStep := none, steps := [], startedAt := t
      sessionId := none }
  { st with
    runningTasks := aset st.runningTasks taskId info
    sessions := saveSession st.sessions
      { linearTaskId := taskId, sessionId := "", identifier := identifier
        title := title, startedAt := t, completedAt := none, success := none }
    events := st.events ++
      [MonEvent.update { taskId := taskId, identifier := identifier
                         status := "running", startedAt := some t },
       MonEvent.log "info" (some taskId)
         ("🚀 [" ++ identifier ++ "] Starting task: " ++ title)] }

/-- `MonitorService.taskProgress`: when the id is absent from the running
map the method does nothing; otherwise it updates the entry in place,
appends to the step history and broadcasts. -/
def taskProgress (st : SysState) (taskId step : String) (pct t : Nat) :
    SysState :=
  match alookup st.runningTasks taskId with
  | none => st
  | some info =>
      let info2 := { info with progress := pct, currentStep := some step
                               steps := info.steps ++ [(step, t)] }
      { st with
        runningTasks := aset st.runningTasks taskId info2
        events := st.events ++
          [MonEvent.update { taskId := taskId, identifier := info.identifier
                             status := "running", progress := some pct
                             currentStep := some step
                             duration := some (t - info.startedAt) },
           MonEvent.log "info" (some taskId)
             ("[" ++ info.identifier ++ "] " ++ step)] }

/-- `MonitorService.taskSessionId`: when the id is running, records the
captured session id in the running entry, persists it immediately through
`updateSessionId`, and broadcasts. -/
def taskSessionId (st : SysState) (taskId sid : String) (t : Nat) :
    SysState :=
  match alookup st.runningTasks taskId with
  | none => st
  | some info =>
      { st with
        runningTasks :=
          aset st.runningTasks taskId { info with sessionId := some sid }
        sessions := updateSessionId st.sessions taskId sid
        events := st.events ++
          [MonEvent.update { taskId := taskId, identifier := info.identifier
                             status := "running"
                             progress := some info.progress
                             currentStep := info.currentStep
                             duration := some (t - info.startedAt)
                             sessionId := some sid },
           MonEvent.log "info" (some taskId)
             ("[" ++ info.identifier ++ "] Session ID: " ++ sid)] }

/-- `MonitorService.taskCompleted`: when the id is absent from the running
map the method does nothing at all; otherwise it copies the entry into the
completed-task history map, persists completion through `completeTask`,
broadcasts a terminal update, a log line and (via `refreshStats`) a stats
refresh, and deletes the running entry. -/
def taskCompleted (st : SysState) (taskId : String) (success : Bool)
    (t : Nat) (summary : Option String) : SysState :=
  match alookup st.runningTasks taskId with
  | none => st
  | some info =>
      let hist : TaskExecutionHistory :=
        { taskId := taskId, identifier := info.identifier
          title := info.title, sessionId := info.sessionId
          startedAt := info.startedAt, completedAt := t, success := success }
      { st with
        taskHistory := aset st.taskHistory taskId hist
        sessions := completeTask st.sessions taskId success t
        events := st.events ++
          [MonEvent.update { taskId := taskId, identifier := info.identifier
                             status := if success then "completed" else "failed"
                             progress := some 100
                             duration := some (t - info.startedAt)
                             sessionId := info.sessionId },
           MonEvent.log (if success then "info" else "error") (some taskId)
             (if success then
               "🎉 [" ++ info.identifier ++ "] Task completed (duration: " ++
                 toString ((t - info.startedAt) / 1000) ++ "s)"
              else
               "❌ [" ++ info.identifier ++ "] Task failed: " ++
                 summary.getD "undefined"),
           MonEvent.stats]
        runningTasks := adel st.runningTasks taskId }

/-- One Task Tracker call, for reasoning about arbitrary interleavings of
tracker operations. -/
inductive MonOp
  | start (taskId identifier title : String) (t : Nat)
  | progress (taskId step : String) (pct t : Nat)
  | capture (taskId sid : String) (t : Nat)
  | complete (taskId : String) (success : Bool) (t : Nat)
      (summary : Option String)
  deriving DecidableEq, Repr

def applyOp (st : SysState) : MonOp → SysState
  | MonOp.start id ident title t => taskStarted st id ident title t
  | MonOp.progress id step pct t => taskProgress st id step pct t
  | MonOp.capture id sid t => taskSessionId st id sid t
  | MonOp.complete id success t summary => taskCompleted st id success t summary

def applyOps (st : SysState) (ops : List MonOp) : SysState :=
  ops.foldl applyOp st

/-- Whether an operation is a `taskStarted` call for the given task id. -/
def isStartOf (op : MonOp) (taskId : String) : Bool :=
  match op with
  | MonOp.start id _ _ _ => id == taskId
  | _ => false

/-! ## Job processor (`TaskProcessor`, `task.processor.ts`) -/

/-- `REVIEW_KEYWORDS` (`task.processor.ts`): the fixed trigger set of the
review gate. -/
def REVIEW_KEYWORDS : List String :=
  ["write", "generate", "create", "send", "email", "article",
   "report", "delete", "modify", "update", "code", "script"]

/-- `TaskProcessor.checkNeedsReview`: lowercases `title description` and
scans for any trigger keyword as a substring. -/
def checkNeedsReview (task : Task) : Bool :=
  let content := strToLower (task.title ++ " " ++ task.description.getD "")
  REVIEW_KEYWORDS.any (fun keyword => strIncludes content keyword)

/-- The review-notice comment `handleTask` posts when routing an item to
"In Review" (verbatim from `task.processor.ts`). -/
def reviewAwaitBody : String :=
  "👀 **Task completed, awaiting human review**\n\n" ++
  "Please check the execution result, then:\n" ++
  "- ✅ Approved → Change status to \"Done\"\n" ++
  "- 🔄 Needs changes → Reply with feedback, change status back to \"Todo\"\n" ++
  "- ❌ Cancel task → Change status to \"Canceled\""

/-- The failure comment `handleTask` posts on the catch path. -/
def execFailBody (msg : String) (attemptsMade maxAttempts : Nat) : String :=
  "❌ Task execution failed\n\n**Error:**\n```\n" ++ msg ++
  "\n```\n\n**Retry attempts:** " ++ toString attemptsMade ++ "/" ++
  toString maxAttempts

/-- The acknowledgement comment `handleFeedback` posts before resuming. -/
def feedbackAckBody : String := "🔄 Processing your feedback..."

/-- The failure comment `handleFeedback` posts on the catch path. -/
def feedbackFailBody (msg : String) (attemptsMade maxAttempts : Nat) :
    String :=
  "❌ Feedback processing failed\n\n**Error:**\n```\n" ++ msg ++
  "\n```\n\n**Retry attempts:** " ++ toString attemptsMade ++ "/" ++
  toString maxAttempts

/-- The acknowledgement comment `handleRetry` posts. -/
def retryAckBody : String := "🔄 Retrying task execution..."

/-- The failure comment `handleRetry` posts on the catch path. -/
def retryFailBody (msg : String) (attemptsMade maxAttempts : Nat) : String :=
  "❌ Retry failed\n\n**Error:**\n```\n" ++ msg ++
  "\n```\n\n**Retry attempts:** " ++ toString attemptsMade ++ "/" ++
  toString maxAttempts

/-- The success comment `handleRetry` posts on the no-review branch. -/
def retryDoneBody : String := "✅ **Retry successful! Task completed**"

/-- The acknowledgement comment the discovery poller posts after a
successful claim (`task-poller.service.ts`). -/
def pollAckBody : String :=
  "🚀 Task received by system, execution starting soon..."

/-- Outcome of a `ClaudeService.executeTask`/`executeFeedback` call as
observed by the job processor: either a returned
`TaskExecutionResult` (`success` flag plus `error` text) or a thrown
exception. -/
inductive AgentOutcome
  | ok (success : Bool) (error : String)
  | thrown (message : String)
  deriving DecidableEq, Repr

/-- A streaming callback the agent call fires mid-run: an `onProgress` or
an `onSessionId` invocation, which the processor forwards to the monitor
for the job's task id. -/
inductive CallbackEvt
  | prog (step : String) (pct t : Nat)
  | sid (s : String) (t : Nat)
  deriving DecidableEq, Repr

def applyCallbacks (st : SysState) (taskId : String)
    (evts : List CallbackEvt) : SysState :=
  evts.foldl
    (fun s e =>
      match e with
      | CallbackEvt.prog step pct t => taskProgress s taskId step pct t
      | CallbackEvt.sid i t => taskSessionId s taskId i t)
    st

/-- Catch path of `TaskProcessor.handleTask`: set "Failed", post the error
comment, report `completed(success=false)` (the re-throw to the queue is
what triggers the retry policy). -/
def handleTaskCatch (st : SysState) (task : Task) (msg : String)
    (attemptsMade maxAttempts t : Nat) : SysState :=
  let s1 := (updateStatus st task.id statusFailed).1
  let s2 := addComment s1 task.id (execFailBody msg attemptsMade maxAttempts)
  taskCompleted s2 task.id false t (some msg)

/-- `TaskProcessor.handleTask` (the `execute` job handler): start the
monitor entry, run the agent (its streaming callbacks are the `mid`
events), then on a successful result apply the review gate and request
"In Review" (with the review notice comment) or "Done"; on a failed result
or a thrown error take the catch path. -/
def handleTask (st : SysState) (task : Task) (mid : List CallbackEvt)
    (outcome : AgentOutcome) (attemptsMade maxAttempts t : Nat) : SysState :=
  let s1 := taskStarted st task.id task.identifier task.title t
  let s2 := applyCallbacks s1 task.id mid
  match outcome with
  | AgentOutcome.ok true _ =>
      if checkNeedsReview task then
        let s3 := (updateStatus s2 task.id statusInReview).1
        let s4 := addComment s3 task.id reviewAwaitBody
        taskCompleted s4 task.id true t none
      else
        let s3 := (updateStatus s2 task.id statusDone).1
        taskCompleted s3 task.id true t none
  | AgentOutcome.ok false err =>
      handleTaskCatch s2 task err attemptsMade maxAttempts t
  | AgentOutcome.thrown msg =>
      handleTaskCatch s2 task msg attemptsMade maxAttempts t

/-- Catch path of `TaskProcessor.handleFeedback`. -/
def handleFeedbackCatch (st : SysState) (task : Task) (msg : String)
    (attemptsMade maxAttempts t : Nat) : SysState :=
  let s1 := (updateStatus st task.id statusFailed).1
  let s2 :=
    addComment s1 task.id (feedbackFailBody msg attemptsMade maxAttempts)
  taskCompleted s2 task.id false t (some msg)

/-- `TaskProcessor.handleFeedback` (the `feedback` job handler): start the
monitor entry labelled "[Feedback]", request "In Progress", post the
acknowledgement, run the agent resumed on `sessionId`, then — before the
`result.success` check — mark the supplied comment ids processed; on
success only report completion (no status transition, no review gate); on
a failed result or a thrown error take the catch path (a thrown error
skips the comment marking). -/
def handleFeedback (st : SysState) (task : Task) (feedback : String)
    (commentIds : List String) (sessionId : String)
    (mid : List CallbackEvt) (outcome : AgentOutcome)
    (attemptsMade maxAttempts t : Nat) : SysState :=
  let s1 :=
    taskStarted st task.id task.identifier ("[Feedback] " ++ task.title) t
  let s2 := (updateStatus s1 task.id statusInProgress).1
  let s3 := addComment s2 task.id feedbackAckBody
  let s4 := applyCallbacks s3 task.id mid
  match outcome with
  | AgentOutcome.thrown msg =>
      handleFeedbackCatch s4 task msg attemptsMade maxAttempts t
  | AgentOutcome.ok success err =>
      let s5 :=
        { s4 with
          processed := markCommentsProcessed s4.processed commentIds task.id }
      if success then taskCompleted s5 task.id true t none
      else handleFeedbackCatch s5 task err attemptsMade maxAttempts t

/-- Catch path of `TaskProcessor.handleRetry`. -/
def handleRetryCatch (st : SysState) (task : Task) (msg : String)
    (attemptsMade maxAttempts t : Nat) : SysState :=
  let s1 := (updateStatus st task.id statusFailed).1
  let s2 := addComment s1 task.id (retryFailBody msg attemptsMade maxAttempts)
  taskCompleted s2 task.id false t (some msg)

/-- `TaskProcessor.handleRetry` (the `retry` job handler): like
`handleFeedback` but with the fixed retry prompt, no comment marking, and
the review gate applied on success. -/
def handleRetry (st : SysState) (task : Task) (mid : List CallbackEvt)
    (outcome : AgentOutcome) (attemptsMade maxAttempts t : Nat) : SysState :=
  let s1 :=
    taskStarted st task.id task.identifier ("[Retry] " ++ task.title) t
  let s2 := addComment s1 task.id retryAckBody
  let s3 := applyCallbacks s2 task.id mid
  match outcome with
  | AgentOutcome.ok true _ =>
      if checkNeedsReview task then
        let s4 := (updateStatus s3 task.id statusInReview).1
        let s5 := addComment s4 task.id reviewAwaitBody
        taskCompleted s5 task.id true t none
      else
        let s4 := (updateStatus s3 task.id statusDone).1
        let s5 := addComment s4 task.id retryDoneBody
        taskCompleted s5 task.id true t none
  | AgentOutcome.ok false err =>
      handleRetryCatch s3 task err attemptsMade maxAttempts t
  | AgentOutcome.thrown msg =>
      handleRetryCatch s3 task msg attemptsMade maxAttempts t

/-! ## Queue jobs and the pollers -/

/-- A job in the `task-queue` (`task.interface.ts` payload shapes). -/
inductive QueuedJob
  | execute (task : Task)
  | feedback (task : Task) (feedbackText : String) (commentIds : List String)
      (sessionId : String)
  | retry (task : Task) (sessionId : String)
  deriving DecidableEq, Repr

/-- The per-task body of `TaskPollerService.pollTasks`: attempt the claim
via `lockTask`; when it reports success, post the acknowledgement comment
and enqueue an `execute` job; otherwise skip. -/
def pollClaimStep (st : SysState) (q : List QueuedJob) (task : Task) :
    SysState × List QueuedJob :=
  let r := lockTask st task.id
  if r.2 then
    (addComment r.1 task.id pollAckBody, q ++ [QueuedJob.execute task])
  else
    (r.1, q)

/-- A tracker comment as fetched by `LinearService.getComments`. -/
structure CommentRec where
  id : String
  body : String
  createdAt : Nat
  deriving DecidableEq, Repr

/-- The comment filter of `ReviewPollerService.pollReviewTasks`: keep the
comments whose body does not start with the automated-comment marker
"🤖 \n" and whose id is not in the processed-comment ledger. -/
def newUserComments (processed : List (String × String))
    (comments : List CommentRec) : List CommentRec :=
  comments.filter
    (fun c => !(strStartsWith c.body "🤖 \n") &&
              !(isCommentProcessed processed c.id))

/-- The feedback merge of `pollReviewTasks`:
`newUserComments.map((c) => c.body).join(sep)`. -/
def mergedFeedback (cs : List CommentRec) : String :=
  String.intercalate "\n\n---\n\n" (cs.map (fun c => c.body))

/-- The per-task body of `ReviewPollerService.pollReviewTasks`: skip when
no stored session id; filter the fetched comments; when any remain,
enqueue one `feedback` job carrying the merged text, the comment-id list
and the stored session id. -/
def reviewPollStep (st : SysState) (q : List QueuedJob) (task : Task)
    (comments : List CommentRec) : SysState × List QueuedJob :=
  match (alookup st.sessions task.id).bind (fun r => r.sessionId) with
  | none => (st, q)
  | some sid =>
      let news := newUserComments st.processed comments
      if news.isEmpty then (st, q)
      else
        (st, q ++ [QueuedJob.feedback task (mergedFeedback news)
          (news.map (fun c => c.id)) sid])

/-! ## Queue retry policy

The enqueue options every caller passes (`task-poller.service.ts`,
`review-poller.service.ts`, `monitor.service.ts`). -/

def jobMaxAttempts : Nat := 3

def jobBackoffBaseDelay : Nat := 5000

/-- Modelled from the spec: the Queue's exponential backoff is supplied by
the durable broker (Bull), which is not part of this repository's sources;
per the spec, a failed attempt `k` (1-based) is requeued after
`delay = baseDelay * 2^(attempts-1)` where `attempts` is the number of
attempts made so far. -/
def bullExponentialDelay (baseDelay k : Nat) : Nat :=
  baseDelay * 2 ^ (k - 1)

/-- The successive retry delays a job with the given options observes: one
delay after each non-final failed attempt. -/
def retryDelays (maxAttempts baseDelay : Nat) : List Nat :=
  (List.range (maxAttempts - 1)).map
    (fun i => bullExponentialDelay baseDelay (i + 1))

/-! ## Concrete fixtures used by the claim theorems -/

/-- The seven workflow state names the Linear team exposes
(`TaskStatus`). -/
def standardStates : List String :=
  [statusBacklog, statusTodo, statusInProgress, statusInReview,
   statusDone, statusFailed, statusCanceled]

/-- A fresh system state with a configured tracker, the standard state
cache, the given per-issue statuses, and every other component empty. -/
def initState (sts : List (String × String)) : SysState :=
  { configured := true, trackerStates := standardStates, statuses := sts
    statusLog := [], comments := [], runningTasks := [], taskHistory := []
    sessions := [], processed := [], events := [] }

/-- The spec's "Write changelog" example item. -/
def taskW : Task :=
  { id := "X1", identifier := "T-1", title := "Write changelog"
    description := none }

/-- The spec's "Check status" example item. -/
def taskC : Task :=
  { id := "X2", identifier := "T-2", title := "Check status"
    description := none }

/-! ## Association-list lemmas -/

theorem alookup_aset_self {α : Type} (l : List (String × α)) (k : String)
    (v : α) : alookup (aset l k v) k = some v := by
  induction l with
  | nil => simp [aset, alookup]
  | cons p rest ih =>
      by_cases h : p.1 = k
      · simp [aset, alookup, h]
      · simp [aset, alookup, h, ih]

theorem alookup_aset_ne {α : Type} (l : List (String × α)) (k k2 : String)
    (v : α) (h : k ≠ k2) : alookup (aset l k v) k2 = alookup l k2 := by
  induction l with
  | nil => simp [aset, alookup, h]
  | cons p rest ih =>
      by_cases hp : p.1 = k
      · simp [aset, alookup, hp, h]
      · simp only [aset, alookup, beq_iff_eq, hp, if_false]
        by_cases hp2 : p.1 = k2
        · simp [hp2]
        · simp [hp2, ih]

theorem alookup_adel_self {α : Type} (l : List (String × α)) (k : String) :
    alookup (adel l k) k = none := by
  induction l with
  | nil => simp [adel, alookup]
  | cons p rest ih =>
      by_cases h : p.1 = k
      · simpa [adel, alookup, h] using ih
      · simpa [adel, alookup, h] using ih

theorem alookup_adel_ne {α : Type} (l : List (String × α)) (k k2 : String)
    (h : k ≠ k2) : alookup (adel l k) k2 = alookup l k2 := by
  induction l with
  | nil => simp [adel, alookup]
  | cons p rest ih =>
      by_cases hp : p.1 = k
      · have hfilter : adel (p :: rest) k = adel rest k := by
          simp [adel, hp]
        have hp2 : p.1 ≠ k2 := fun hc => h (hp.symm.trans hc)
        rw [hfilter, ih]
        simp [alookup, hp2]
      · have hfilter : adel (p :: rest) k = p :: adel rest k := by
          simp [adel, hp]
        rw [hfilter]
        by_cases hp2 : p.1 = k2
        · simp [alookup, hp2]
        · simp [alookup, hp2, ih]

theorem aset_of_absent {α : Type} (l : List (String × α)) (k : String)
    (v : α) (h : alookup l k = none) : aset l k v = l ++ [(k, v)] := by
  induction l with
  | nil => simp [aset]
  | cons p rest ih =>
      by_cases hp : p.1 = k
      · simp [alookup, hp] at h
      · simp only [alookup, beq_iff_eq, hp, if_false] at h
        simp [aset, hp, ih h]

theorem length_aset_absent {α : Type} (l : List (String × α)) (k : String)
    (v : α) (h : alookup l k = none) :
    (aset l k v).length = l.length + 1 := by
  rw [aset_of_absent l k v h]
  simp

theorem alookup_append {α : Type} (l l2 : List (String × α)) (k : String) :
    alookup (l ++ l2) k = coalesce (alookup l k) (alookup l2 k) := by
  induction l with
  | nil => simp [alookup, coalesce]
  | cons p rest ih =>
      by_cases hp : p.1 = k
      · simp [alookup, hp, coalesce]
      · simp [alookup, hp, ih]

/-! ## Frame lemmas: which state components each operation leaves alone -/

theorem statusLog_taskStarted (st : SysState) (id i ti : String) (t : Nat) :
    (taskStarted st id i ti t).statusLog = st.statusLog := rfl

theorem statusLog_taskProgress (st : SysState) (id s : String) (p t : Nat) :
    (taskProgress st id s p t).statusLog = st.statusLog := by
  unfold taskProgress
  cases alookup st.runningTasks id <;> rfl

theorem statusLog_taskSessionId (st : SysState) (id sid : String) (t : Nat) :
    (taskSessionId st id sid t).statusLog = st.statusLog := by
  unfold taskSessionId
  cases alookup st.runningTasks id <;> rfl

theorem statusLog_taskCompleted (st : SysState) (id : String) (b : Bool)
    (t : Nat) (su : Option String) :
    (taskCompleted st id b t su).statusLog = st.statusLog := by
  unfold taskCompleted
  cases alookup st.runningTasks id <;> rfl

theorem statusLog_addComment (st : SysState) (id body : String) :
    (addComment st id body).statusLog = st.statusLog := by
  unfold addComment
  split <;> rfl

theorem statusLog_updateStatus (st : SysState) (id n : String) :
    (updateStatus st id n).1.statusLog = st.statusLog ++ [(id, n)] := by
  unfold updateStatus
  split <;> rfl

theorem statusLog_applyCallbacks (st : SysState) (id : String)
    (evts : List CallbackEvt) :
    (applyCallbacks st id evts).statusLog = st.statusLog := by
  induction evts generalizing st with
  | nil => rfl
  | cons e rest ih =>
      cases e with
      | prog s p t =>
          simpa [applyCallbacks, statusLog_taskProgress] using
            ih (taskProgress st id s p t)
      | sid s t =>
          simpa [applyCallbacks, statusLog_taskSessionId] using
            ih (taskSessionId st id s t)

theorem processed_taskStarted (st : SysState) (id i ti : String) (t : Nat) :
    (taskStarted st id i ti t).processed = st.processed := rfl

theorem processed_taskProgress (st : SysState) (id s : String) (p t : Nat) :
    (taskProgress st id s p t).processed = st.processed := by
  unfold taskProgress
  cases alookup st.runningTasks id <;> rfl

theorem processed_taskSessionId (st : SysState) (id sid : String) (t : Nat) :
    (taskSessionId st id sid t).processed = st.processed := by
  unfold taskSessionId
  cases alookup st.runningTasks id <;> rfl

theorem processed_taskCompleted (st : SysState) (id : String) (b : Bool)
    (t : Nat) (su : Option String) :
    (taskCompleted st id b t su).processed = st.processed := by
  unfold taskCompleted
  cases alookup st.runningTasks id <;> rfl

theorem processed_addComment (st : SysState) (id body : String) :
    (addComment st id body).processed = st.processed := by
  unfold addComment
  split <;> rfl

theorem processed_updateStatus (st : SysState) (id n : String) :
    (updateStatus st id n).1.processed = st.processed := by
  unfold updateStatus
  split <;> rfl

theorem processed_applyCallbacks (st : SysState) (id : String)
    (evts : List CallbackEvt) :
    (applyCallbacks st id evts).processed = st.processed := by
  induction evts generalizing st with
  | nil => rfl
  | cons e rest ih =>
      cases e with
      | prog s p t =>
          simpa [applyCallbacks, processed_taskProgress] using
            ih (taskProgress st id s p t)
      | sid s t =>
          simpa [applyCallbacks, processed_taskSessionId] using
            ih (taskSessionId st id s t)

theorem history_taskStarted (st : SysState) (id i ti : String) (t : Nat) :
    (taskStarted st id i ti t).taskHistory = st.taskHistory := rfl

theorem history_taskProgress (st : SysState) (id s : String) (p t : Nat) :
    (taskProgress st id s p t).taskHistory = st.taskHistory := by
  unfold taskProgress
  cases alookup st.runningTasks id <;> rfl

theorem history_taskSessionId (st : SysState) (id sid : String) (t : Nat) :
    (taskSessionId st id sid t).taskHistory = st.taskHistory := by
  unfold taskSessionId
  cases alookup st.runningTasks id <;> rfl

theorem history_addComment (st : SysState) (id body : String) :
    (addComment st id body).taskHistory = st.taskHistory := by
  unfold addComment
  split <;> rfl

theorem history_updateStatus (st : SysState) (id n : String) :
    (updateStatus st id n).1.taskHistory = st.taskHistory := by
  unfold updateStatus
  split <;> rfl

theorem history_applyCallbacks (st : SysState) (id : String)
    (evts : List CallbackEvt) :
    (applyCallbacks st id evts).taskHistory = st.taskHistory := by
  induction evts generalizing st with
  | nil => rfl
  | cons e rest ih =>
      cases e with
      | prog s p t =>
          simpa [applyCallbacks, history_taskProgress] using
            ih (taskProgress st id s p t)
      | sid s t =>
          simpa [applyCallbacks, history_taskSessionId] using
            ih (taskSessionId st id s t)

/-! ## Running-map lookup lemmas -/

theorem running_taskStarted_self (st : SysState) (id i ti : String)
    (t : Nat) :
    alookup (taskStarted st id i ti t).runningTasks id =
      some { taskId := id, identifier := i, title := ti, progress := 0
             currentStep := none, steps := [], startedAt := t
             sessionId := none } := by
  unfold taskStarted
  exact alookup_aset_self st.runningTasks id _

theorem running_isSome_taskProgress (st : SysState) (id s : String)
    (p t : Nat) (k : String)
    (h : (alookup st.runningTasks k).isSome = true) :
    (alookup (taskProgress st id s p t).runningTasks k).isSome = true := by
  unfold taskProgress
  cases hm : alookup st.runningTasks id with
  | none => simpa using h
  | some info =>
      by_cases hk : id = k
      · subst hk
        simp [alookup_aset_self]
      · simp [alookup_aset_ne _ _ _ _ hk, h]

theorem running_isSome_taskSessionId (st : SysState) (id sid : String)
    (t : Nat) (k : String)
    (h : (alookup st.runningTasks k).isSome = true) :
    (alookup (taskSessionId st id sid t).runningTasks k).isSome = true := by
  unfold taskSessionId
  cases hm : alookup st.runningTasks id with
  | none => simpa using h
  | some info =>
      by_cases hk : id = k
      · subst hk
        simp [alookup_aset_self]
      · simp [alookup_aset_ne _ _ _ _ hk, h]

theorem running_isSome_applyCallbacks (st : SysState) (id : String)
    (evts : List CallbackEvt) (k : String)
    (h : (alookup st.runningTasks k).isSome = true) :
    (alookup (applyCallbacks st id evts).runningTasks k).isSome = true := by
  induction evts generalizing st with
  | nil => simpa [applyCallbacks] using h
  | cons e rest ih =>
      cases e with
      | prog s p t =>
          simpa [applyCallbacks] using
            ih (taskProgress st id s p t)
              (running_isSome_taskProgress st id s p t k h)
      | sid s t =>
          simpa [applyCallbacks] using
            ih (taskSessionId st id s t)
              (running_isSome_taskSessionId st id s t k h)

theorem taskProgress_absent_noop (st : SysState) (id s : String) (p t : Nat)
    (h : alookup st.runningTasks id = none) :
    taskProgress st id s p t = st := by
  unfold taskProgress
  rw [h]

theorem taskCompleted_absent_noop (st : SysState) (id : String) (b : Bool)
    (t : Nat) (su : Option String)
    (h : alookup st.runningTasks id = none) :
    taskCompleted st id b t su = st := by
  unfold taskCompleted
  rw [h]

theorem running_taskCompleted_self (st : SysState) (id : String) (b : Bool)
    (t : Nat) (su : Option String) :
    alookup (taskCompleted st id b t su).runningTasks id = none := by
  unfold taskCompleted
  cases hm : alookup st.runningTasks id with
  | none => simpa using hm
  | some info => simpa using alookup_adel_self st.runningTasks id

theorem running_taskStarted_ne (st : SysState) (id i ti : String) (t : Nat)
    (k : String) (hne : id ≠ k) :
    alookup (taskStarted st id i ti t).runningTasks k =
      alookup st.runningTasks k := by
  unfold taskStarted
  exact alookup_aset_ne _ _ _ _ hne

theorem running_taskProgress_ne (st : SysState) (id s : String) (p t : Nat)
    (k : String) (hne : id ≠ k) :
    alookup (taskProgress st id s p t).runningTasks k =
      alookup st.runningTasks k := by
  unfold taskProgress
  cases hm : alookup st.runningTasks id with
  | none => rfl
  | some info => exact alookup_aset_ne _ _ _ _ hne

theorem running_taskSessionId_ne (st : SysState) (id sid : String) (t : Nat)
    (k : String) (hne : id ≠ k) :
    alookup (taskSessionId st id sid t).runningTasks k =
      alookup st.runningTasks k := by
  unfold taskSessionId
  cases hm : alookup st.runningTasks id with
  | none => rfl
  | some info => exact alookup_aset_ne _ _ _ _ hne

theorem running_taskCompleted_ne (st : SysState) (id : String) (b : Bool)
    (t : Nat) (su : Option String) (k : String) (hne : id ≠ k) :
    alookup (taskCompleted st id b t su).runningTasks k =
      alookup st.runningTasks k := by
  unfold taskCompleted
  cases hm : alookup st.runningTasks id with
  | none => rfl
  | some info => exact alookup_adel_ne _ _ _ hne

theorem running_none_applyOp (st : SysState) (k : String) (op : MonOp)
    (h : alookup st.runningTasks k = none)
    (hop : isStartOf op k = false) :
    alookup (applyOp st op).runningTasks k = none := by
  cases op with
  | start id i ti t =>
      have hne : id ≠ k := by
        simpa [isStartOf] using hop
      show alookup (taskStarted st id i ti t).runningTasks k = none
      rw [running_taskStarted_ne st id i ti t k hne]
      exact h
  | progress id s p t =>
      show alookup (taskProgress st id s p t).runningTasks k = none
      by_cases hk : id = k
      · subst hk
        rw [taskProgress_absent_noop st id s p t h]
        exact h
      · rw [running_taskProgress_ne st id s p t k hk]
        exact h
  | capture id sid t =>
      show alookup (taskSessionId st id sid t).runningTasks k = none
      by_cases hk : id = k
      · subst hk
        have : taskSessionId st id sid t = st := by
          unfold taskSessionId
          rw [h]
        rw [this]
        exact h
      · rw [running_taskSessionId_ne st id sid t k hk]
        exact h
  | complete id b t su =>
      show alookup (taskCompleted st id b t su).runningTasks k = none
      by_cases hk : id = k
      · subst hk
        exact running_taskCompleted_self st id b t su
      · rw [running_taskCompleted_ne st id b t su k hk]
        exact h

theorem running_none_applyOps (st : SysState) (k : String)
    (ops : List MonOp) (h : alookup st.runningTasks k = none)
    (hops : ∀ op ∈ ops, isStartOf op k = false) :
    alookup (applyOps st ops).runningTasks k = none := by
  induction ops generalizing st with
  | nil => simpa [applyOps] using h
  | cons op rest ih =>
      have h1 := running_none_applyOp st k op h (hops op (by simp))
      have h2 : ∀ o ∈ rest, isStartOf o k = false := by
        intro o ho
        exact hops o (by simp [ho])
      simpa [applyOps] using ih (applyOp st op) h1 h2

/-! ## Completion lemmas (running entry moves into the history map) -/

theorem taskCompleted_of_running (st : SysState) (id : String)
    (info : RunningTaskInfo) (b : Bool) (t : Nat) (su : Option String)
    (h : alookup st.runningTasks id = some info) :
    (taskCompleted st id b t su).runningTasks = adel st.runningTasks id ∧
    (taskCompleted st id b t su).taskHistory =
      aset st.taskHistory id
        { taskId := id, identifier := info.identifier, title := info.title
          sessionId := info.sessionId, startedAt := info.startedAt
          completedAt := t, success := b } := by
  unfold taskCompleted
  rw [h]
  exact ⟨rfl, rfl⟩

theorem history_length_taskCompleted (st : SysState) (id : String)
    (b : Bool) (t : Nat) (su : Option String)
    (hrun : (alookup st.runningTasks id).isSome = true)
    (hhist : alookup st.taskHistory id = none) :
    (taskCompleted st id b t su).taskHistory.length =
      st.taskHistory.length + 1 := by
  cases hm : alookup st.runningTasks id with
  | none => rw [hm] at hrun; cases hrun
  | some info =>
      rw [(taskCompleted_of_running st id info b t su hm).2]
      exact length_aset_absent _ _ _ hhist

/-! ## Processed-comment ledger lemmas -/

theorem isCommentProcessed_mark_self (l : List (String × String))
    (c tid : String) :
    isCommentProcessed (markCommentProcessed l c tid) c = true := by
  unfold markCommentProcessed
  by_cases h : isCommentProcessed l c = true
  · simp [h]
  · have hnone : alookup l c = none := by
      unfold isCommentProcessed at h
      cases hm : alookup l c with
      | none => rfl
      | some v => rw [hm] at h; simp at h
    simp [h, isCommentProcessed, alookup_append, hnone, alookup, coalesce]

theorem isCommentProcessed_mark_mono (l : List (String × String))
    (c c2 tid : String) (h : isCommentProcessed l c = true) :
    isCommentProcessed (markCommentProcessed l c2 tid) c = true := by
  unfold markCommentProcessed
  split
  · exact h
  · unfold isCommentProcessed at h ⊢
    cases hm : alookup l c with
    | none => rw [hm] at h; cases h
    | some v => simp [alookup_append, hm, coalesce]

theorem isCommentProcessed_marks_mono (l : List (String × String))
    (cids : List String) (tid c : String)
    (h : isCommentProcessed l c = true) :
    isCommentProcessed (markCommentsProcessed l cids tid) c = true := by
  induction cids generalizing l with
  | nil => simpa [markCommentsProcessed] using h
  | cons c2 rest ih =>
      simpa [markCommentsProcessed] using
        ih (markCommentProcessed l c2 tid)
          (isCommentProcessed_mark_mono l c c2 tid h)

theorem isCommentProcessed_marks_mem (l : List (String × String))
    (cids : List String) (tid c : String) (h : c ∈ cids) :
    isCommentProcessed (markCommentsProcessed l cids tid) c = true := by
  induction cids generalizing l with
  | nil => cases h
  | cons c2 rest ih =>
      rcases List.mem_cons.mp h with hc | hc
      · subst hc
        simpa [markCommentsProcessed] using
          isCommentProcessed_marks_mono (markCommentProcessed l c tid)
            rest tid c (isCommentProcessed_mark_self l c tid)
      · simpa [markCommentsProcessed] using
          ih (markCommentProcessed l c2 tid) hc

/-! ## Session-id monotonicity machinery -/

theorem coalesce_none_right {α : Type} (a : Option α) :
    coalesce a none = a := by
  cases a <;> rfl

theorem coalesce_assoc {α : Type} (a b c : Option α) :
    coalesce (coalesce a b) c = coalesce a (coalesce b c) := by
  cases a <;> cases b <;> rfl

theorem getLast?_cons_coalesce {α : Type} (c : α) (rest : List α) :
    (c :: rest).getLast? = coalesce rest.getLast? (some c) := by
  induction rest generalizing c with
  | nil => rfl
  | cons d tl ih =>
      rw [List.getLast?_cons_cons, ih d]
      cases htl : tl.getLast? <;> simp [coalesce]

theorem getLast?_append_coalesce {α : Type} (l1 l2 : List α) :
    (l1 ++ l2).getLast? = coalesce l2.getLast? l1.getLast? := by
  induction l1 with
  | nil => simp [coalesce_none_right]
  | cons x l1 ih =>
      rw [List.cons_append, getLast?_cons_coalesce, ih, coalesce_assoc,
        getLast?_cons_coalesce]

/-- The session id durably stored for a work item: NULL when the row is
absent or its `session_id` column is NULL. -/
def storedSid (db : List (String × SessRow)) (taskId : String) :
    Option String :=
  (alookup db taskId).bind (fun row => row.sessionId)

/-- One execute/feedback/retry run of a work item as the session store
observes it: `taskStarted`'s `saveSession` upsert (always with an empty
`sessionId`, coerced to NULL), followed by the session ids the run
captures, each persisted immediately through `updateSessionId`, and — when
the run reaches `taskCompleted` rather than crashing — a final
`completeTask` write (`finished` is the reported success flag). -/
structure RunSpec where
  identifier : String
  title : String
  startedAt : Nat
  captures : List String
  finished : Option Bool
  completedAt : Nat
  deriving DecidableEq, Repr

/-- The `TaskSession` record `taskStarted` passes to `saveSession`. -/
def startTS (taskId : String) (r : RunSpec) : TaskSession :=
  { linearTaskId := taskId, sessionId := "", identifier := r.identifier
    title := r.title, startedAt := r.startedAt, completedAt := none
    success := none }

def applyRunStore (db : List (String × SessRow)) (taskId : String)
    (r : RunSpec) : List (String × SessRow) :=
  let afterCaptures :=
    r.captures.foldl (fun d sid => updateSessionId d taskId sid)
      (saveSession db (startTS taskId r))
  match r.finished with
  | none => afterCaptures
  | some b => completeTask afterCaptures taskId b r.completedAt

def applyRunsStore (db : List (String × SessRow)) (taskId : String)
    (rs : List RunSpec) : List (String × SessRow) :=
  rs.foldl (fun d r => applyRunStore d taskId r) db

theorem alookup_saveSession_self (db : List (String × SessRow))
    (ts : TaskSession) :
    (alookup (saveSession db ts) ts.linearTaskId).isSome = true := by
  unfold saveSession
  cases alookup db ts.linearTaskId <;> simp [alookup_aset_self]

theorem storedSid_saveSession_start (db : List (String × SessRow))
    (taskId : String) (r : RunSpec) :
    storedSid (saveSession db (startTS taskId r)) taskId =
      storedSid db taskId := by
  unfold storedSid saveSession startTS
  cases hm : alookup db taskId with
  | none => simp [alookup_aset_self, strOrNull]
  | some old => simp [alookup_aset_self, strOrNull, coalesce]

theorem isSome_updateSessionId (db : List (String × SessRow))
    (taskId sid : String) (h : (alookup db taskId).isSome = true) :
    (alookup (updateSessionId db taskId sid) taskId).isSome = true := by
  unfold updateSessionId
  cases hm : alookup db taskId with
  | none => rw [hm] at h; cases h
  | some old => simp [alookup_aset_self]

theorem storedSid_updateSessionId (db : List (String × SessRow))
    (taskId sid : String) (h : (alookup db taskId).isSome = true) :
    storedSid (updateSessionId db taskId sid) taskId = some sid := by
  unfold storedSid updateSessionId
  cases hm : alookup db taskId with
  | none => rw [hm] at h; cases h
  | some old => simp [alookup_aset_self]

theorem isSome_foldCaptures (caps : List String)
    (db : List (String × SessRow)) (taskId : String)
    (h : (alookup db taskId).isSome = true) :
    (alookup (caps.foldl (fun d sid => updateSessionId d taskId sid) db)
      taskId).isSome = true := by
  induction caps generalizing db with
  | nil => simpa using h
  | cons c rest ih =>
      simpa using ih (updateSessionId db taskId c)
        (isSome_updateSessionId db taskId c h)

theorem storedSid_foldCaptures (caps : List String)
    (db : List (String × SessRow)) (taskId : String)
    (h : (alookup db taskId).isSome = true) :
    storedSid (caps.foldl (fun d sid => updateSessionId d taskId sid) db)
        taskId =
      coalesce caps.getLast? (storedSid db taskId) := by
  induction caps generalizing db with
  | nil => simp [coalesce]
  | cons c rest ih =>
      have hstep := storedSid_updateSessionId db taskId c h
      have hsome := isSome_updateSessionId db taskId c h
      calc storedSid
            ((c :: rest).foldl (fun d sid => updateSessionId d taskId sid) db)
            taskId
          = coalesce rest.getLast?
              (storedSid (updateSessionId db taskId c) taskId) := by
            simpa using ih (updateSessionId db taskId c) hsome
        _ = coalesce rest.getLast? (some c) := by rw [hstep]
        _ = coalesce (c :: rest).getLast? (storedSid db taskId) := by
            rw [getLast?_cons_coalesce, coalesce_assoc]
            cases storedSid db taskId <;> simp [coalesce]

theorem isSome_completeTask (db : List (String × SessRow))
    (taskId : String) (b : Bool) (t : Nat)
    (h : (alookup db taskId).isSome = true) :
    (alookup (completeTask db taskId b t) taskId).isSome = true := by
  unfold completeTask
  cases hm : alookup db taskId with
  | none => rw [hm] at h; cases h
  | some old => simp [alookup_aset_self]

theorem storedSid_completeTask (db : List (String × SessRow))
    (taskId : String) (b : Bool) (t : Nat) :
    storedSid (completeTask db taskId b t) taskId =
      storedSid db taskId := by
  unfold storedSid completeTask
  cases hm : alookup db taskId with
  | none => rw [hm]
  | some old => simp [alookup_aset_self]

theorem isSome_applyRunStore (db : List (String × SessRow))
    (taskId : String) (r : RunSpec) :
    (alookup (applyRunStore db taskId r) taskId).isSome = true := by
  unfold applyRunStore
  have hcap := isSome_foldCaptures r.captures
    (saveSession db (startTS taskId r)) taskId
    (alookup_saveSession_self db (startTS taskId r))
  cases hf : r.finished with
  | none => simpa using hcap
  | some b => simpa using isSome_completeTask _ taskId b r.completedAt hcap

theorem storedSid_applyRunStore (db : List (String × SessRow))
    (taskId : String) (r : RunSpec) :
    storedSid (applyRunStore db taskId r) taskId =
      coalesce r.captures.getLast? (storedSid db taskId) := by
  unfold applyRunStore
  have hcap : storedSid
      (r.captures.foldl (fun d sid => updateSessionId d taskId sid)
        (saveSession db (startTS taskId r))) taskId =
      coalesce r.captures.getLast? (storedSid db taskId) := by
    rw [storedSid_foldCaptures r.captures _ taskId
      (alookup_saveSession_self db (startTS taskId r))]
    rw [storedSid_saveSession_start]
  cases hf : r.finished with
  | none => simpa using hcap
  | some b =>
      have hdone : storedSid
          (completeTask
            (r.captures.foldl (fun d sid => updateSessionId d taskId sid)
              (saveSession db (startTS taskId r)))
            taskId b r.completedAt) taskId =
          coalesce r.captures.getLast? (storedSid db taskId) := by
        rw [storedSid_completeTask]
        exact hcap
      exact hdone

theorem storedSid_applyRunsStore (db : List (String × SessRow))
    (taskId : String) (rs : List RunSpec) :
    storedSid (applyRunsStore db taskId rs) taskId =
      coalesce ((rs.map RunSpec.captures).flatten).getLast?
        (storedSid db taskId) := by
  induction rs generalizing db with
  | nil => simp [applyRunsStore, coalesce]
  | cons r rest ih =>
      have hfold :
          applyRunsStore db taskId (r :: rest) =
            applyRunsStore (applyRunStore db taskId r) taskId rest := rfl
      rw [hfold, ih (applyRunStore db taskId r), storedSid_applyRunStore]
      rw [List.map_cons, List.flatten_cons, getLast?_append_coalesce, coalesce_assoc]

theorem isSome_applyRunsStore_cons (db : List (String × SessRow))
    (taskId : String) (r : RunSpec) (rest : List RunSpec) :
    (alookup (applyRunsStore db taskId (r :: rest)) taskId).isSome =
      true := by
  induction rest generalizing db r with
  | nil => exact isSome_applyRunStore db taskId r
  | cons r2 rest2 ih => exact ih (applyRunStore db taskId r) r2

/-! ## Unbounded-history machinery (claim C9) -/

def keyOf (n : Nat) : String :=
  String.mk (List.replicate n 'a')

theorem keyOf_injective : Function.Injective keyOf := by
  intro a b h
  have hlen := congrArg (fun s => s.data.length) h
  simpa [keyOf] using hlen

def idsUpTo (n : Nat) : List String :=
  (List.range n).map keyOf

/-- A start/complete pair of Task Tracker calls for each given task id. -/
def startCompleteOps (ids : List String) : List MonOp :=
  (ids.map (fun i =>
    [MonOp.start i "I-1" "Title" 0, MonOp.complete i true 0 none])).flatten

theorem history_after_startComplete (ids : List String) (s : SysState)
    (hnd : ids.Nodup)
    (habs : ∀ i ∈ ids, alookup s.taskHistory i = none) :
    (applyOps s (startCompleteOps ids)).taskHistory.length =
      s.taskHistory.length + ids.length := by
  induction ids generalizing s with
  | nil => simp [startCompleteOps, applyOps]
  | cons i rest ih =>
      have hunf : startCompleteOps (i :: rest) =
          MonOp.start i "I-1" "Title" 0 ::
            MonOp.complete i true 0 none :: startCompleteOps rest := rfl
      have happ : applyOps s (startCompleteOps (i :: rest)) =
          applyOps
            (applyOp (applyOp s (MonOp.start i "I-1" "Title" 0))
              (MonOp.complete i true 0 none))
            (startCompleteOps rest) := by
        rw [hunf]
        rfl
      have hrun :
          alookup (applyOp s (MonOp.start i "I-1" "Title" 0)).runningTasks
            i =
          some { taskId := i, identifier := "I-1", title := "Title"
                 progress := 0, currentStep := none, steps := []
                 startedAt := 0, sessionId := none } :=
        running_taskStarted_self s i "I-1" "Title" 0
      have hist2 :=
        (taskCompleted_of_running (applyOp s (MonOp.start i "I-1" "Title" 0))
          i _ true 0 none hrun).2
      have hhist1 :
          (applyOp s (MonOp.start i "I-1" "Title" 0)).taskHistory =
            s.taskHistory := rfl
      have habsi : alookup s.taskHistory i = none := habs i (by simp)
      have hlen2 :
          (applyOp (applyOp s (MonOp.start i "I-1" "Title" 0))
            (MonOp.complete i true 0 none)).taskHistory.length =
          s.taskHistory.length + 1 := by
        show (taskCompleted (applyOp s (MonOp.start i "I-1" "Title" 0))
          i true 0 none).taskHistory.length = s.taskHistory.length + 1
        rw [hist2, hhist1]
        exact length_aset_absent _ _ _ habsi
      have habs2 : ∀ j ∈ rest,
          alookup (applyOp (applyOp s (MonOp.start i "I-1" "Title" 0))
            (MonOp.complete i true 0 none)).taskHistory j = none := by
        intro j hj
        have hij : i ≠ j := by
          intro hc
          subst hc
          exact (List.nodup_cons.mp hnd).1 hj
        show alookup (taskCompleted (applyOp s (MonOp.start i "I-1" "Title" 0))
          i true 0 none).taskHistory j = none
        rw [hist2, hhist1, alookup_aset_ne _ _ _ _ hij]
        exact habs j (by simp [hj])
      rw [happ, ih _ (List.nodup_cons.mp hnd).2 habs2, hlen2]
      simp [Nat.add_assoc, Nat.add_comm 1 rest.length]

/-! ## Fixtures for the concrete claim theorems -/

/-- An execute run of the "Write changelog" item that captures session id
"s1" and succeeds. -/
def execRunW : SysState :=
  handleTask (initState [("X1", statusInProgress)]) taskW
    [CallbackEvt.sid "s1" 5] (AgentOutcome.ok true "") 0 3 9

/-- A feedback run of the "Check status" item whose agent call returns
success. -/
def feedbackSuccessRun : SysState :=
  handleFeedback (initState [("X2", statusInReview)]) taskC "looks good"
    ["c1"] "sess-1" [] (AgentOutcome.ok true "") 0 3 7

/-- A feedback run of the "Check status" item whose agent call returns a
failure result (`success: false`), as opposed to throwing. -/
def feedbackFailedRun : SysState :=
  handleFeedback (initState [("X2", statusInReview)]) taskC "looks good"
    ["c1"] "sess-1" [] (AgentOutcome.ok false "boom") 0 3 7

theorem running_updateStatus (st : SysState) (id n : String) :
    (updateStatus st id n).1.runningTasks = st.runningTasks := by
  unfold updateStatus
  split <;> rfl

theorem running_addComment (st : SysState) (id body : String) :
    (addComment st id body).runningTasks = st.runningTasks := by
  unfold addComment
  split <;> rfl

theorem processed_handleFeedbackCatch (st : SysState) (task : Task)
    (msg : String) (aM mA t : Nat) :
    (handleFeedbackCatch st task msg aM mA t).processed = st.processed := by
  unfold handleFeedbackCatch
  rw [processed_taskCompleted, processed_addComment, processed_updateStatus]

theorem taskCompleted_history_success (S : SysState) (id : String)
    (b : Bool) (t : Nat) (su : Option String)
    (h : (alookup S.runningTasks id).isSome = true) :
    ((alookup (taskCompleted S id b t su).taskHistory id).map
      (fun hh => hh.success)) = some b := by
  cases hm : alookup S.runningTasks id with
  | none => rw [hm] at h; cases h
  | some info =>
      rw [(taskCompleted_of_running S id info b t su hm).2,
        alookup_aset_self]
      rfl

/-! ## The claims -/

/-- Claim C1: the spec asserts that for a ready WorkItem, concurrent claim
attempts yield exactly one success, all others returning `false` without
enqueueing a duplicate execute job.  The code violates this:
`LinearService.lockTask` never inspects the item's current status, so two
actors that both fetched the item while it was "Todo" both get `true` back
and both enqueue an execute job. -/
theorem claim1_concurrent_claims_all_succeed :
    (lockTask (initState [("X1", statusTodo)]) "X1").2 = true ∧
    (lockTask (lockTask (initState [("X1", statusTodo)]) "X1").1 "X1").2 =
      true ∧
    (pollClaimStep
        (pollClaimStep (initState [("X1", statusTodo)]) [] taskW).1
        (pollClaimStep (initState [("X1", statusTodo)]) [] taskW).2
        taskW).2 =
      [QueuedJob.execute taskW, QueuedJob.execute taskW] := by
  decide

/-- Claim C2, counterexample: a feedback job on "Check status" (no trigger
keywords) whose agent run succeeds requests no "Done" transition at all —
the only transition ever requested by `handleFeedback` is the initial
"In Progress", even though the run is reported completed with success. -/
theorem claim2_counterexample :
    feedbackSuccessRun.statusLog = [("X2", statusInProgress)] ∧
    alookup feedbackSuccessRun.statuses "X2" = some statusInProgress ∧
    feedbackSuccessRun.statusLog.contains ("X2", statusDone) = false ∧
    checkNeedsReview taskC = false ∧
    ((alookup feedbackSuccessRun.taskHistory "X2").map
      (fun h => h.success)) = some true := by
  decide

/-- Claim C2, amended: for every feedback job whose agent run returns
success, `handleFeedback` applies no review gate and requests no final
status transition; the only transition it requests is "In Progress" at job
start, and it reports completion (success) to the Task Tracker. -/
theorem claim2_feedback_success_reports_only (st : SysState) (task : Task)
    (fb : String) (cids : List String) (sid : String)
    (mid : List CallbackEvt) (err : String) (aM mA t : Nat) :
    (handleFeedback st task fb cids sid mid (AgentOutcome.ok true err)
        aM mA t).statusLog =
      st.statusLog ++ [(task.id, statusInProgress)] ∧
    alookup (handleFeedback st task fb cids sid mid
        (AgentOutcome.ok true err) aM mA t).runningTasks task.id = none ∧
    ((alookup (handleFeedback st task fb cids sid mid
        (AgentOutcome.ok true err) aM mA t).taskHistory task.id).map
      (fun h => h.success)) = some true := by
  have hfin : handleFeedback st task fb cids sid mid
      (AgentOutcome.ok true err) aM mA t =
      taskCompleted
        { applyCallbacks
            (addComment
              ((updateStatus
                (taskStarted st task.id task.identifier
                  ("[Feedback] " ++ task.title) t)
                task.id statusInProgress).1)
              task.id feedbackAckBody)
            task.id mid with
          processed := markCommentsProcessed
            (applyCallbacks
              (addComment
                ((updateStatus
                  (taskStarted st task.id task.identifier
                    ("[Feedback] " ++ task.title) t)
                  task.id statusInProgress).1)
                task.id feedbackAckBody)
              task.id mid).processed cids task.id }
        task.id true t none := rfl
  have hrun :
      (alookup
        (applyCallbacks
          (addComment
            ((updateStatus
              (taskStarted st task.id task.identifier
                ("[Feedback] " ++ task.title) t)
              task.id statusInProgress).1)
            task.id feedbackAckBody)
          task.id mid).runningTasks task.id).isSome = true := by
    apply running_isSome_applyCallbacks
    rw [running_addComment, running_updateStatus,
      running_taskStarted_self]
    rfl
  refine ⟨?_, ?_, ?_⟩
  · rw [hfin, statusLog_taskCompleted]
    show (applyCallbacks
        (addComment
          ((updateStatus
            (taskStarted st task.id task.identifier
              ("[Feedback] " ++ task.title) t)
            task.id statusInProgress).1)
          task.id feedbackAckBody)
        task.id mid).statusLog =
      st.statusLog ++ [(task.id, statusInProgress)]
    rw [statusLog_applyCallbacks, statusLog_addComment,
      statusLog_updateStatus, statusLog_taskStarted]
  · rw [hfin]
    exact running_taskCompleted_self _ task.id true t none
  · rw [hfin]
    apply taskCompleted_history_success
    exact hrun

set_option maxRecDepth 8000 in
/-- Claim C3: the spec asserts that the review poller merges exactly the
comments not carrying the automated-comment marker and not in the ledger,
and concludes no system-posted comment is ever included.  The filter is
marker-based, but the Job Processor's own comments (e.g. the review notice
posted by `handleTask`) do not start with "🤖 \n", so the very comment the
system posts when routing an item to review passes the filter and becomes
the feedbackText of an enqueued feedback job. -/
theorem claim3_system_comment_in_feedback_job :
    ("X1", reviewAwaitBody) ∈ execRunW.comments ∧
    strStartsWith reviewAwaitBody "🤖 \n" = false ∧
    newUserComments execRunW.processed
        [{ id := "c9", body := reviewAwaitBody, createdAt := 11 }] =
      [{ id := "c9", body := reviewAwaitBody, createdAt := 11 }] ∧
    (reviewPollStep execRunW [] taskW
        [{ id := "c9", body := reviewAwaitBody, createdAt := 11 }]).2 =
      [QueuedJob.feedback taskW reviewAwaitBody ["c9"] "s1"] := by
  decide

/-- Claim C4, counterexample: a feedback job whose agent run returns a
failure result (`success: false`) still has its supplied comment ids
marked processed — `handleFeedback` calls `markCommentsProcessed` before
checking `result.success` — even though the job then takes the failure
path. -/
theorem claim4_counterexample :
    isCommentProcessed feedbackFailedRun.processed "c1" = true ∧
    feedbackFailedRun.processed = [("c1", "X2")] ∧
    alookup feedbackFailedRun.statuses "X2" = some statusFailed ∧
    ((alookup feedbackFailedRun.taskHistory "X2").map
      (fun h => h.success)) = some false := by
  decide

/-- Claim C4, amended: comment ids are marked processed whenever the agent
call returns a result — successful or failed — and are not marked when the
call throws; the batch insert covers every supplied id. -/
theorem claim4_marking_follows_return (st : SysState) (task : Task)
    (fb : String) (cids : List String) (sid : String)
    (mid : List CallbackEvt) (b : Bool) (err msg : String) (aM mA t : Nat) :
    (∀ cid ∈ cids,
      isCommentProcessed
        (handleFeedback st task fb cids sid mid (AgentOutcome.ok b err)
          aM mA t).processed cid = true) ∧
    (handleFeedback st task fb cids sid mid (AgentOutcome.thrown msg)
      aM mA t).processed = st.processed := by
  constructor
  · intro cid hcid
    cases b with
    | true =>
        have hfin : handleFeedback st task fb cids sid mid
            (AgentOutcome.ok true err) aM mA t =
            taskCompleted
              { applyCallbacks
                  (addComment
                    ((updateStatus
                      (taskStarted st task.id task.identifier
                        ("[Feedback] " ++ task.title) t)
                      task.id statusInProgress).1)
                    task.id feedbackAckBody)
                  task.id mid with
                processed := markCommentsProcessed
                  (applyCallbacks
                    (addComment
                      ((updateStatus
                        (taskStarted st task.id task.identifier
                          ("[Feedback] " ++ task.title) t)
                        task.id statusInProgress).1)
                      task.id feedbackAckBody)
                    task.id mid).processed cids task.id }
              task.id true t none := rfl
        rw [hfin, processed_taskCompleted]
        exact isCommentProcessed_marks_mem _ cids task.id cid hcid
    | false =>
        have hfin : handleFeedback st task fb cids sid mid
            (AgentOutcome.ok false err) aM mA t =
            handleFeedbackCatch
              { applyCallbacks
                  (addComment
                    ((updateStatus
                      (taskStarted st task.id task.identifier
                        ("[Feedback] " ++ task.title) t)
                      task.id statusInProgress).1)
                    task.id feedbackAckBody)
                  task.id mid with
                processed := markCommentsProcessed
                  (applyCallbacks
                    (addComment
                      ((updateStatus
                        (taskStarted st task.id task.identifier
                          ("[Feedback] " ++ task.title) t)
                        task.id statusInProgress).1)
                      task.id feedbackAckBody)
                    task.id mid).processed cids task.id }
              task err aM mA t := rfl
        rw [hfin, processed_handleFeedbackCatch]
        exact isCommentProcessed_marks_mem _ cids task.id cid hcid
  · have hfin : handleFeedback st task fb cids sid mid
        (AgentOutcome.thrown msg) aM mA t =
        handleFeedbackCatch
          (applyCallbacks
            (addComment
              ((updateStatus
                (taskStarted st task.id task.identifier
                  ("[Feedback] " ++ task.title) t)
                task.id statusInProgress).1)
              task.id feedbackAckBody)
            task.id mid)
          task msg aM mA t := rfl
    rw [hfin, processed_handleFeedbackCatch, processed_applyCallbacks,
      processed_addComment, processed_updateStatus, processed_taskStarted]

/-- Claim C5: after a nonempty sequence of sequential runs on the same
WorkItem — each run being the `taskStarted` upsert followed by the session
ids it captures — the stored `sessionId` equals the id captured by the most
recent run that captured one (the last element of the concatenated capture
lists), and a run that captures nothing (in particular, the bare start
upsert) leaves the previously captured id in place. -/
theorem claim5_session_id_most_recent (taskId : String) (r : RunSpec)
    (rest : List RunSpec) :
    (∃ row, alookup (applyRunsStore [] taskId (r :: rest)) taskId =
        some row ∧
      row.sessionId =
        (((r :: rest).map RunSpec.captures).flatten).getLast?) ∧
    (∀ r2 : RunSpec, r2.captures = [] →
      storedSid
          (applyRunStore (applyRunsStore [] taskId (r :: rest)) taskId r2)
          taskId =
        storedSid (applyRunsStore [] taskId (r :: rest)) taskId) := by
  constructor
  · have hs := isSome_applyRunsStore_cons [] taskId r rest
    cases hm : alookup (applyRunsStore [] taskId (r :: rest)) taskId with
    | none => rw [hm] at hs; cases hs
    | some row =>
        refine ⟨row, rfl, ?_⟩
        have hsid := storedSid_applyRunsStore [] taskId (r :: rest)
        unfold storedSid at hsid
        rw [hm] at hsid
        simpa [alookup, coalesce_none_right] using hsid
  · intro r2 hr2
    rw [storedSid_applyRunStore, hr2]
    rfl

/-- Claim C6: with the enqueue options every caller passes
(`attempts: 3`, exponential backoff with `delay: 5000`), a job that fails
on every attempt observes retry delays of 5000 ms and then 10000 ms —
15000 ms cumulative — before it is terminally failed. -/
theorem claim6_backoff_schedule :
    retryDelays jobMaxAttempts jobBackoffBaseDelay = [5000, 10000] ∧
    (retryDelays jobMaxAttempts jobBackoffBaseDelay).sum = 15000 ∧
    bullExponentialDelay jobBackoffBaseDelay 1 = 5000 ∧
    bullExponentialDelay jobBackoffBaseDelay 2 = 10000 := by
  decide

/-- Claim C7: after `taskCompleted` for a task id, and through any further
tracker operations that do not start that id again, a `taskProgress` call
for the id leaves the entire state — running map, history, session store
and event stream — unchanged; and a progress call for any absent id never
inserts an entry (it is a complete no-op). -/
theorem claim7_progress_no_resurrection (s : SysState) (id : String)
    (b : Bool) (tc : Nat) (su : Option String) (ops : List MonOp)
    (step : String) (pct tp : Nat)
    (hops : ∀ op ∈ ops, isStartOf op id = false) :
    taskProgress (applyOps (taskCompleted s id b tc su) ops) id step pct
        tp =
      applyOps (taskCompleted s id b tc su) ops ∧
    (∀ s2 : SysState, alookup s2.runningTasks id = none →
      taskProgress s2 id step pct tp = s2) := by
  constructor
  · have h0 : alookup (taskCompleted s id b tc su).runningTasks id = none :=
      running_taskCompleted_self s id b tc su
    have h1 := running_none_applyOps (taskCompleted s id b tc su) id ops h0
      hops
    exact taskProgress_absent_noop _ id step pct tp h1
  · intro s2 h2
    exact taskProgress_absent_noop s2 id step pct tp h2

/-- Witness for claim C7 at a concrete state and an empty trailing
operation list. -/
theorem claim7_witness :
    (∀ op ∈ ([] : List MonOp), isStartOf op "X5" = false) ∧
    (taskProgress
        (applyOps (taskCompleted (initState []) "X5" true 1 none) [])
        "X5" "analysing" 50 2 =
      applyOps (taskCompleted (initState []) "X5" true 1 none) []) :=
  ⟨by simp,
   (claim7_progress_no_resurrection (initState []) "X5" true 1 none []
      "analysing" 50 2 (by simp)).1⟩

/-- Claim C8: the review gate is a pure function of title+description; the
item titled "Write changelog" matches the trigger set and `handleTask`
requests "In Review" for it, while "Check status" matches nothing and is
routed to "Done". -/
theorem claim8_review_gate_routes :
    checkNeedsReview taskW = true ∧
    checkNeedsReview taskC = false ∧
    (handleTask (initState [("X1", statusInProgress)]) taskW []
        (AgentOutcome.ok true "") 0 3 9).statusLog =
      [("X1", statusInReview)] ∧
    alookup (handleTask (initState [("X1", statusInProgress)]) taskW []
        (AgentOutcome.ok true "") 0 3 9).statuses "X1" =
      some statusInReview ∧
    (handleTask (initState [("X2", statusInProgress)]) taskC []
        (AgentOutcome.ok true "") 0 3 9).statusLog =
      [("X2", statusDone)] ∧
    alookup (handleTask (initState [("X2", statusInProgress)]) taskC []
        (AgentOutcome.ok true "") 0 3 9).statuses "X2" =
      some statusDone := by
  decide

/-- Claim C9, counterexample: the completed-task cache is not bounded by
any fixed constant — for every candidate bound there is a sequence of Task
Tracker operations (start/complete pairs on distinct ids) after which the
history map is strictly larger. -/
theorem claim9_counterexample :
    ¬ ∃ c : Nat, ∀ ops : List MonOp,
      ((applyOps (initState []) ops).taskHistory).length ≤ c := by
  rintro ⟨c, hc⟩
  have hnd : (idsUpTo (c + 1)).Nodup :=
    (List.nodup_range (c + 1)).map keyOf_injective
  have habs : ∀ i ∈ idsUpTo (c + 1),
      alookup (initState []).taskHistory i = none := by
    intro i _
    rfl
  have hlen := history_after_startComplete (idsUpTo (c + 1)) (initState [])
    hnd habs
  have htot := hc (startCompleteOps (idsUpTo (c + 1)))
  rw [hlen] at htot
  have hids : (idsUpTo (c + 1)).length = c + 1 := by
    simp [idsUpTo]
  rw [hids] at htot
  have h0 : (initState []).taskHistory.length = 0 := rfl
  rw [h0] at htot
  omega

/-- Claim C9, amended: `taskCompleted` on a currently running id removes
the entry from the running map and inserts the corresponding record into
the completed-task history cache; that cache, however, is an ordinary map
that is never evicted, so its size is not bounded by any fixed constant
(see the counterexample). -/
theorem claim9_complete_moves_to_cache (st : SysState) (id : String)
    (info : RunningTaskInfo) (b : Bool) (t : Nat) (su : Option String)
    (h : alookup st.runningTasks id = some info) :
    alookup (taskCompleted st id b t su).runningTasks id = none ∧
    alookup (taskCompleted st id b t su).taskHistory id =
      some { taskId := id, identifier := info.identifier
             title := info.title, sessionId := info.sessionId
             startedAt := info.startedAt, completedAt := t
             success := b } := by
  have hmov := taskCompleted_of_running st id info b t su h
  constructor
  · rw [hmov.1]
    exact alookup_adel_self _ _
  · rw [hmov.2]
    exact alookup_aset_self _ _ _

/-- Witness for the amended claim C9 at a concrete started task. -/
theorem claim9_witness :
    alookup (taskStarted (initState []) "X3" "I-3" "T3" 0).runningTasks
        "X3" =
      some { taskId := "X3", identifier := "I-3", title := "T3"
             progress := 0, currentStep := none, steps := []
             startedAt := 0, sessionId := none } ∧
    (alookup (taskCompleted (taskStarted (initState []) "X3" "I-3" "T3" 0)
        "X3" true 4 none).runningTasks "X3" = none ∧
     alookup (taskCompleted (taskStarted (initState []) "X3" "I-3" "T3" 0)
        "X3" true 4 none).taskHistory "X3" =
      some { taskId := "X3", identifier := "I-3", title := "T3"
             sessionId := none, startedAt := 0, completedAt := 4
             success := true }) :=
  ⟨by decide,
   claim9_complete_moves_to_cache (taskStarted (initState []) "X3" "I-3"
      "T3" 0) "X3"
      { taskId := "X3", identifier := "I-3", title := "T3", progress := 0
        currentStep := none, steps := [], startedAt := 0
        sessionId := none }
      true 4 none (by decide)⟩

/-- Claim C10: `taskCompleted` for an id absent from the running map is a
complete no-op — the whole system state, including the completed-task
history, the durable session rows and the event stream, is unchanged; a
completion reported after the in-memory entry is gone is silently
dropped. -/
theorem claim10_absent_completion_noop (st : SysState) (id : String)
    (b : Bool) (t : Nat) (su : Option String)
    (h : alookup st.runningTasks id = none) :
    taskCompleted st id b t su = st :=
  taskCompleted_absent_noop st id b t su h

/-- Witness for claim C10 at a concrete state with no running entry. -/
theorem claim10_witness :
    alookup (initState []).runningTasks "X7" = none ∧
    taskCompleted (initState []) "X7" true 3 none = initState [] :=
  ⟨by decide,
   claim10_absent_completion_noop (initState []) "X7" true 3 none
     (by decide)⟩

end TwentyFour
